import Mathlib

/-!
Verification of the ban registry in `zhenxun/models/ban_console.py`.

The registry stores `BanConsole` rows keyed by the optional pair
(user_id, group_id).  We embed the database table as a list of records
together with a counter supplying fresh surrogate ids, and each classmethod
of `BanConsole` as a pure function over that state.  Time is passed
explicitly (`now : Int`, epoch seconds, matching `int(time.time())`).
Fallible operations return `Except BanError`, mirroring the
`UserAndGroupIsNone` exception raised by `_get_data`.

Python truthiness matters in the source (`if not user_id and not group_id`,
`if group_id`, `operator or 0`): an optional string is falsy when it is
`None` or empty.  `pyFalsy` captures this.
-/

/-- Row of the `ban_console` table, with the surrogate primary key `id`. -/
structure BanRecord where
  id : Nat
  user_id : Option String
  group_id : Option String
  ban_level : Int
  ban_time : Int
  ban_reason : Option String
  duration : Int
  operator : String
deriving Repr, DecidableEq

/-- Database state: the stored rows plus the next fresh surrogate id. -/
structure DB where
  store : List BanRecord
  nextId : Nat
deriving Repr, DecidableEq

/-- Error raised by `_get_data` when both identity fields are absent. -/
inductive BanError where
  | userAndGroupIsNone
deriving Repr, DecidableEq

/-- Python truthiness of an optional string: `None` and `""` are falsy. -/
def pyFalsy : Option String → Bool
  | none => true
  | some s => s.isEmpty

/-- Python `operator or 0` stored into a CharField: a falsy operator
becomes the sentinel string `"0"`. -/
def pyOrZero : Option String → String
  | none => "0"
  | some s => if s.isEmpty then "0" else s

/-- Python `abs` on the integer difference computed by `check_ban_time`. -/
def pyAbs (t : Int) : Int := if t < 0 then -t else t

/-- Row filter used by `_get_data` once the identity guard has passed:
with a truthy user and truthy group it matches the exact pair, with a
truthy user and falsy group it matches `group_id IS NULL`, and with a
falsy user it matches the empty-string user sentinel with that group. -/
def resolvePred (user_id group_id : Option String) (r : BanRecord) : Bool :=
  if !pyFalsy user_id then
    if !pyFalsy group_id then
      r.user_id == user_id && r.group_id == group_id
    else
      r.user_id == user_id && r.group_id == none
  else
    r.user_id == some "" && r.group_id == group_id

/-- Embedding of `BanConsole._get_data`: raises `UserAndGroupIsNone` when both identity
fields are falsy, otherwise returns the first row matching `resolvePred`
(the store holds at most one per key, so "first" is the row). -/
def getData (db : DB) (user_id group_id : Option String) :
    Except BanError (Option BanRecord) :=
  if pyFalsy user_id && pyFalsy group_id then
    .error .userAndGroupIsNone
  else
    .ok (db.store.find? (resolvePred user_id group_id))

/-- Deletion of a row (`await user.delete()`), by primary key. -/
def deleteRecord (db : DB) (rid : Nat) : DB :=
  { db with store := db.store.filter (fun r => r.id != rid) }

/-- Row inserted by `BanConsole.ban` via `cls.create`: all fields from the
call, `ban_time = now`, and the fresh surrogate id `i`. -/
def newRecord (i : Nat) (user_id group_id : Option String)
    (ban_level : Int) (reason : Option String) (duration : Int)
    (operator : Option String) (now : Int) : BanRecord :=
  ⟨i, user_id, group_id, ban_level, now, reason, duration, pyOrZero operator⟩

/-- Embedding of `cls.create(...)` inside `BanConsole.ban`: append the new row and bump
the id counter. -/
def createRecord (db : DB) (user_id group_id : Option String)
    (ban_level : Int) (reason : Option String) (duration : Int)
    (operator : Option String) (now : Int) : DB :=
  ⟨db.store ++ [newRecord db.nextId user_id group_id ban_level reason
      duration operator now], db.nextId + 1⟩

/-- Embedding of `BanConsole.check_ban_level`: resolve the record; `true` iff it exists
and its `ban_level` is at most `level`. -/
def check_ban_level (db : DB) (user_id group_id : Option String)
    (level : Int) : Except BanError Bool :=
  (getData db user_id group_id).bind fun user =>
    match user with
    | some r => .ok (decide (r.ban_level ≤ level))
    | none => .ok false

/-- Resolution step of `BanConsole.check_ban_time`: the `_get_data` call
followed by the `if not user and user_id` fallback to the user-global row. -/
def resolveForBanTime (db : DB) (user_id group_id : Option String) :
    Except BanError (Option BanRecord) :=
  (getData db user_id group_id).bind fun user =>
    match user with
    | some r => .ok (some r)
    | none =>
      if !pyFalsy user_id then getData db user_id none else .ok none

/-- Embedding of `BanConsole.check_ban_time`: `-1` for a permanent ban, `abs(now -
(ban_time + duration))` while a timed ban is active, and otherwise `0`,
deleting the resolved row when it has expired. -/
def check_ban_time (now : Int) (db : DB) (user_id group_id : Option String) :
    Except BanError (Int × DB) :=
  (resolveForBanTime db user_id group_id).bind fun user =>
    match user with
    | none => .ok (0, db)
    | some r =>
      if r.duration = -1 then .ok (-1, db)
      else
        if now - (r.ban_time + r.duration) < 0 then
          .ok (pyAbs (now - (r.ban_time + r.duration)), db)
        else
          .ok (0, deleteRecord db r.id)

/-- Embedding of `BanConsole.unban`: resolve the record; delete it and return `true`
when present, otherwise return `false`. -/
def unban (db : DB) (user_id group_id : Option String) :
    Except BanError (Bool × DB) :=
  (getData db user_id group_id).bind fun user =>
    match user with
    | some r => .ok (true, deleteRecord db r.id)
    | none => .ok (false, db)

/-- Embedding of `BanConsole.is_ban`: `true` iff `check_ban_time` is nonzero; on zero it
additionally calls `unban` before returning `false`. -/
def is_ban (now : Int) (db : DB) (user_id group_id : Option String) :
    Except BanError (Bool × DB) :=
  (check_ban_time now db user_id group_id).bind fun res =>
    if res.1 ≠ 0 then .ok (true, res.2)
    else (unban res.2 user_id group_id).bind fun res2 => .ok (false, res2.2)

/-- Embedding of `BanConsole.ban`: resolve any existing record for the key, `unban` it
when present, then create the replacement row with `ban_time = now`. -/
def ban (now : Int) (db : DB) (user_id group_id : Option String)
    (ban_level : Int) (reason : Option String) (duration : Int)
    (operator : Option String) : Except BanError DB :=
  (getData db user_id group_id).bind fun target =>
    match target with
    | some _ =>
      (unban db user_id group_id).bind fun res =>
        .ok (createRecord res.2 user_id group_id ban_level reason duration
          operator now)
    | none =>
      .ok (createRecord db user_id group_id ban_level reason duration
        operator now)

/-- Embedding of `BanConsole.get_ban`: direct lookup by surrogate id when `i` is given,
otherwise identity resolution via `_get_data`. -/
def get_ban (db : DB) (i : Option Nat) (user_id group_id : Option String) :
    Except BanError (Option BanRecord) :=
  match i with
  | some n => .ok (db.store.find? (fun r => r.id == n))
  | none => getData db user_id group_id

/-- Exact-key filter: the rows whose stored (user_id, group_id) pair equals
the given one.  For a truthy user and a group that is either `none` or
truthy, this coincides with `resolvePred`. -/
def keyPred (user_id group_id : Option String) (r : BanRecord) : Bool :=
  r.user_id == user_id && r.group_id == group_id

/-- Rows of the store holding the given key. -/
def keyRecords (db : DB) (user_id group_id : Option String) :
    List BanRecord :=
  db.store.filter (keyPred user_id group_id)

/-- Data fields of a row, everything except the surrogate id. -/
def recFields (r : BanRecord) :
    Option String × Option String × Int × Int × Option String × Int ×
      String :=
  (r.user_id, r.group_id, r.ban_level, r.ban_time, r.ban_reason,
    r.duration, r.operator)

/-- Spec-side restatement of the `check_ban_time` outcome on an already
resolved record, written from the claim text for comparison with the code:
no record resolves means `0`; `duration == -1` means `-1`; an active timed
ban returns `abs(now - (ban_time + duration))`; an expired record is
deleted and `0` returned. -/
def specBanTimeResult (now : Int) (db : DB) (res : Option BanRecord) :
    Int × DB :=
  match res with
  | none => (0, db)
  | some r =>
    if r.duration = -1 then (-1, db)
    else if now < r.ban_time + r.duration then
      (pyAbs (now - (r.ban_time + r.duration)), db)
    else (0, deleteRecord db r.id)

/-- Payload of one `ban` call: its clock reading and the caller-supplied
fields. -/
structure BanCall where
  now : Int
  ban_level : Int
  reason : Option String
  duration : Int
  operator : Option String
deriving Repr, DecidableEq

/-- Modelled from the spec: the per-key lock manager behind
`enable_lock = [DbLockType.CREATE, DbLockType.UPSERT]` (its implementation
lives outside this module, in `zhenxun.services`) serializes concurrent
`ban` calls on the same (user_id, group_id) key, so any N concurrent calls
execute as some sequential order of their N payloads.  `banSeq` runs one
such order. -/
def banSeq (db : DB) (user_id group_id : Option String) :
    List BanCall → Except BanError DB
  | [] => .ok db
  | c :: cs =>
    (ban c.now db user_id group_id c.ban_level c.reason c.duration
        c.operator).bind
      fun db2 => banSeq db2 user_id group_id cs

/-- Data fields of the row that a `ban` call with this payload creates. -/
def callFields (user_id group_id : Option String) (c : BanCall) :
    Option String × Option String × Int × Int × Option String × Int ×
      String :=
  (user_id, group_id, c.ban_level, c.now, c.reason, c.duration,
    pyOrZero c.operator)

/-- Empty store. -/
def dbEmpty : DB := ⟨[], 0⟩

/-- Permanent exact ban on ("u1", "g1"), issued at level 5 at time 10. -/
def recPerm : BanRecord :=
  ⟨1, some "u1", some "g1", 5, 10, some "spam", -1, "admin"⟩

/-- Store holding only `recPerm`. -/
def dbPerm : DB := ⟨[recPerm], 2⟩

/-- Permanent global ban on user "u1" (group absent). -/
def recGlob : BanRecord :=
  ⟨1, some "u1", none, 5, 10, some "spam", -1, "admin"⟩

/-- Store holding only the global ban `recGlob`. -/
def dbGlob : DB := ⟨[recGlob], 2⟩

/-- Timed exact ban on ("u2", "g2") starting at 10 with duration 60. -/
def recTimed : BanRecord :=
  ⟨1, some "u2", some "g2", 5, 10, none, 60, "admin"⟩

/-- Store holding only `recTimed`. -/
def dbTimed : DB := ⟨[recTimed], 2⟩

/-- Expired exact ban on ("u3", "g3"): started at 10, duration 20. -/
def recExp : BanRecord := ⟨1, some "u3", some "g3", 5, 10, none, 20, "admin"⟩

/-- Permanent global ban on user "u3". -/
def recGlob3 : BanRecord := ⟨2, some "u3", none, 5, 10, none, -1, "admin"⟩

/-- Store holding the expired exact ban and the active global ban for
user "u3". -/
def dbShadow : DB := ⟨[recExp, recGlob3], 3⟩

/-- Run of two consecutive `ban` calls on the group-only key
(None, "g1"). -/
def c2run : Except BanError DB :=
  (ban 10 dbEmpty none (some "g1") 5 (some "a") 60 (some "op1")).bind
    fun db => ban 20 db none (some "g1") 6 (some "b") 30 (some "op2")

/-- Serialized run of two `ban` calls on the group-only key
(None, "g2"): a valid schedule of two concurrent calls under the per-key
lock. -/
def c8run : Except BanError DB :=
  banSeq dbEmpty none (some "g2")
    [⟨10, 5, some "a", 60, some "op1"⟩, ⟨20, 6, some "b", 30, some "op2"⟩]

/-- Helper: with a truthy user the identity guard in `_get_data` passes. -/
theorem getData_of_user (db : DB) (u g : Option String)
    (hu : pyFalsy u = false) :
    getData db u g = .ok (db.store.find? (resolvePred u g)) := by
  simp [getData, hu]

/-- Helper: a successful `_get_data` call means the guard passed and the
result is the first matching row. -/
theorem getData_ok {db : DB} {u g : Option String} {res : Option BanRecord}
    (h : getData db u g = .ok res) :
    (pyFalsy u && pyFalsy g) = false ∧
      db.store.find? (resolvePred u g) = res := by
  unfold getData at h
  split at h
  · simp at h
  · rename_i hcond
    simp at h
    exact ⟨by simpa using hcond, h⟩

/-- Helper: a row returned by `_get_data` is in the store. -/
theorem getData_mem {db : DB} {u g : Option String} {r : BanRecord}
    (h : getData db u g = .ok (some r)) : r ∈ db.store :=
  List.mem_of_find?_eq_some (getData_ok h).2

/-- Helper: a row resolved by `check_ban_time` (after the user-global
fallback) is in the store. -/
theorem resolveForBanTime_mem {db : DB} {u g : Option String}
    {r : BanRecord} (h : resolveForBanTime db u g = .ok (some r)) :
    r ∈ db.store := by
  unfold resolveForBanTime at h
  cases hgd : getData db u g with
  | error e => rw [hgd] at h; simp [Except.bind] at h
  | ok user =>
    rw [hgd] at h
    cases user with
    | some r0 =>
      simp [Except.bind] at h
      exact h ▸ getData_mem hgd
    | none =>
      simp only [Except.bind] at h
      split at h
      · exact getData_mem h
      · simp at h

/-- Helper: with a truthy user and a group that is either absent or truthy,
the `_get_data` filter is exactly the key filter. -/
theorem pyFalsy_none : pyFalsy none = true := rfl

theorem resolvePred_eq_keyPred {u g : Option String}
    (hu : pyFalsy u = false) (hg : g = none ∨ pyFalsy g = false) :
    resolvePred u g = keyPred u g := by
  funext r
  rcases hg with rfl | hg
  · simp [resolvePred, keyPred, hu, pyFalsy_none]
  · simp [resolvePred, keyPred, hu, hg]

/-- Helper: deleting the row found by a filter that matches at most one row
leaves no row matching that filter. -/
theorem filter_delete_nil {l : List BanRecord} {p : BanRecord → Bool}
    {r : BanRecord} (hf : l.find? p = some r)
    (hcount : (l.filter p).length ≤ 1) :
    (l.filter (fun a => a.id != r.id)).filter p = [] := by
  have hrmem : r ∈ l.filter p :=
    List.mem_filter.mpr ⟨List.mem_of_find?_eq_some hf, List.find?_some hf⟩
  have hlen : (l.filter p).length = 1 :=
    Nat.le_antisymm hcount (List.length_pos_of_mem hrmem)
  obtain ⟨a, ha⟩ := List.length_eq_one.mp hlen
  have har : a = r := by
    have h2 := hrmem
    rw [ha, List.mem_singleton] at h2
    exact h2.symm
  rw [List.filter_eq_nil_iff]
  intro b hb hpb
  have hb1 := (List.mem_filter.mp hb).1
  have hb2 := (List.mem_filter.mp hb).2
  have hbkey : b ∈ l.filter p := List.mem_filter.mpr ⟨hb1, hpb⟩
  rw [ha, List.mem_singleton] at hbkey
  rw [hbkey, har] at hb2
  simp at hb2

/-- Helper: replace semantics of `ban` on a user-keyed target.  With a
truthy user, a group that is either absent or truthy, and at most one
stored row for the key, `ban` succeeds and afterwards the key's rows are
exactly the newly created one. -/
theorem ban_replaces (now : Int) (db : DB) (u g : Option String)
    (lvl : Int) (reason : Option String) (dur : Int) (op : Option String)
    (hu : pyFalsy u = false) (hg : g = none ∨ pyFalsy g = false)
    (hcount : (keyRecords db u g).length ≤ 1) :
    ∃ db2, ban now db u g lvl reason dur op = .ok db2 ∧
      keyRecords db2 u g = [newRecord db.nextId u g lvl reason dur op now] ∧
      db2.nextId = db.nextId + 1 := by
  have hpred := resolvePred_eq_keyPred hu hg
  have hkey_new :
      keyPred u g (newRecord db.nextId u g lvl reason dur op now) = true := by
    simp [keyPred, newRecord]
  unfold ban
  rw [getData_of_user db u g hu, hpred]
  cases hf : db.store.find? (keyPred u g) with
  | none =>
    refine ⟨createRecord db u g lvl reason dur op now, rfl, ?_, rfl⟩
    have hnil : db.store.filter (keyPred u g) = [] := by
      rw [List.filter_eq_nil_iff]
      intro a ha
      exact List.find?_eq_none.mp hf a ha
    simp [keyRecords, createRecord, List.filter_append, hnil, hkey_new]
  | some r =>
    have hunban : unban db u g = .ok (true, deleteRecord db r.id) := by
      unfold unban
      rw [getData_of_user db u g hu, hpred, hf]
      rfl
    have hnil2 :
        (db.store.filter (fun a => a.id != r.id)).filter (keyPred u g) =
          [] :=
      filter_delete_nil hf hcount
    refine ⟨createRecord (deleteRecord db r.id) u g lvl reason dur op now,
      ?_, ?_, rfl⟩
    · simp [Except.bind, hunban]
    · simp [keyRecords, createRecord, deleteRecord, List.filter_append,
        hnil2, hkey_new]

/-- Helper: once resolution is known, `check_ban_time` computes exactly the
spec-side case split `specBanTimeResult`. -/
theorem check_ban_time_run (now : Int) (db : DB) (u g : Option String)
    (res : Option BanRecord)
    (hres : resolveForBanTime db u g = .ok res) :
    check_ban_time now db u g = .ok (specBanTimeResult now db res) := by
  unfold check_ban_time specBanTimeResult
  rw [hres]
  cases res with
  | none => rfl
  | some r =>
    simp only [Except.bind]
    by_cases hd : r.duration = -1
    · rw [if_pos hd, if_pos hd]
    · rw [if_neg hd, if_neg hd]
      by_cases ht : now < r.ban_time + r.duration
      · rw [if_pos (show now - (r.ban_time + r.duration) < 0 by omega),
          if_pos ht]
      · rw [if_neg (show ¬now - (r.ban_time + r.duration) < 0 by omega),
          if_neg ht]

/-- Helper: an actively banning resolved record (permanent, or its window
still open) makes `check_ban_time` return a nonzero value. -/
theorem check_ban_time_active_nonzero (now : Int) (db : DB)
    (u g : Option String) (r : BanRecord)
    (hres : resolveForBanTime db u g = .ok (some r))
    (hact : r.duration = -1 ∨ now < r.ban_time + r.duration) :
    ∃ v db2, check_ban_time now db u g = .ok (v, db2) ∧ v ≠ 0 := by
  rw [check_ban_time_run now db u g (some r) hres]
  by_cases hd : r.duration = -1
  · exact ⟨-1, db, by simp [specBanTimeResult, hd], by decide⟩
  · have hactive : now < r.ban_time + r.duration := hact.resolve_left hd
    refine ⟨pyAbs (now - (r.ban_time + r.duration)), db, ?_, ?_⟩
    · simp [specBanTimeResult, hd, hactive]
    · unfold pyAbs
      rw [if_pos (by omega)]
      omega

/-- C1: for every `check_ban_time(user_id, group_id)` call whose identity
guard passes, the outcome matches the spec case split: no record resolves
gives `0`; a resolved record with `duration == -1` gives `-1`; a finite
record with `now < ban_time + duration` gives `abs(now - (ban_time +
duration))`, a positive value; otherwise the record is deleted and `0`
returned. -/
theorem check_ban_time_spec (now : Int) (db : DB) (u g : Option String)
    (res : Option BanRecord)
    (hres : resolveForBanTime db u g = .ok res) :
    check_ban_time now db u g = .ok (specBanTimeResult now db res) ∧
    (∀ r, res = some r → r.duration ≠ -1 → now < r.ban_time + r.duration →
      0 < pyAbs (now - (r.ban_time + r.duration))) := by
  refine ⟨check_ban_time_run now db u g res hres, ?_⟩
  intro r _ _ hlt
  unfold pyAbs
  rw [if_pos (by omega)]
  omega

/-- Witness for C1: in the store holding the permanent ban `recPerm` on
("u1", "g1"), `check_ban_time` at time 100 returns `-1` and leaves the
store unchanged. -/
theorem check_ban_time_spec_witness :
    check_ban_time 100 dbPerm (some "u1") (some "g1") = .ok (-1, dbPerm) := by
  have h := (check_ban_time_spec 100 dbPerm (some "u1") (some "g1")
    (some recPerm) (by rfl)).1
  rw [h]
  rfl

/-- C3: a resolved record with `duration == -1` makes `check_ban_time`
return `-1` with the store untouched at every point in time, and (with
distinct primary keys) no `check_ban_time` call ever removes a permanent
record from the store. -/
theorem permanent_ban_never_deleted (now : Int) (db : DB)
    (u g : Option String)
    (hids : db.store.Pairwise (fun a b => a.id ≠ b.id)) :
    (∀ r, resolveForBanTime db u g = .ok (some r) → r.duration = -1 →
      check_ban_time now db u g = .ok (-1, db)) ∧
    (∀ v db2, check_ban_time now db u g = .ok (v, db2) →
      ∀ r ∈ db.store, r.duration = -1 → r ∈ db2.store) := by
  constructor
  · intro r hres hdur
    rw [check_ban_time_run now db u g (some r) hres]
    simp [specBanTimeResult, hdur]
  · intro v db2 hrun r hr hdur
    unfold check_ban_time at hrun
    cases hres : resolveForBanTime db u g with
    | error e => rw [hres] at hrun; simp [Except.bind] at hrun
    | ok user =>
      rw [hres] at hrun
      cases user with
      | none =>
        simp [Except.bind] at hrun
        rw [← hrun.2]
        exact hr
      | some r0 =>
        simp only [Except.bind] at hrun
        by_cases hd0 : r0.duration = -1
        · rw [if_pos hd0] at hrun
          simp at hrun
          rw [← hrun.2]
          exact hr
        · rw [if_neg hd0] at hrun
          by_cases ht : now - (r0.ban_time + r0.duration) < 0
          · rw [if_pos ht] at hrun
            simp at hrun
            rw [← hrun.2]
            exact hr
          · rw [if_neg ht] at hrun
            simp at hrun
            rw [← hrun.2]
            have hr0mem : r0 ∈ db.store := resolveForBanTime_mem hres
            have hne : r ≠ r0 := fun h => hd0 (h ▸ hdur)
            have hsymm : Symmetric (fun a b : BanRecord => a.id ≠ b.id) :=
              fun a b h => h.symm
            have hidne : r.id ≠ r0.id := hids.forall hsymm hr hr0mem hne
            simp [deleteRecord, List.mem_filter, hr, hidne]

/-- Witness for C3: the permanent record `recPerm` still makes
`check_ban_time` return `-1` at the much later time 5000, with the store
unchanged. -/
theorem permanent_ban_never_deleted_witness :
    check_ban_time 5000 dbPerm (some "u1") (some "g1") = .ok (-1, dbPerm) :=
  (permanent_ban_never_deleted 5000 dbPerm (some "u1") (some "g1")
    (by simp [dbPerm])).1 recPerm (by rfl) (by rfl)

/-- C4: with both identities truthy and no exact (user, group) row,
`check_ban_time` behaves exactly as the user-global query — it falls back
to the global ban — and in particular an actively banning global record
makes it report the user as banned (nonzero). -/
theorem check_ban_time_fallback (now : Int) (db : DB) (u g : Option String)
    (hu : pyFalsy u = false) (hg : pyFalsy g = false)
    (hexact : db.store.find? (resolvePred u g) = none) :
    check_ban_time now db u g = check_ban_time now db u none ∧
    (∀ r, db.store.find? (resolvePred u none) = some r →
      (r.duration = -1 ∨ now < r.ban_time + r.duration) →
      ∃ v db2, check_ban_time now db u g = .ok (v, db2) ∧ v ≠ 0) := by
  have hres : resolveForBanTime db u g = getData db u none := by
    unfold resolveForBanTime
    rw [getData_of_user db u g hu, hexact]
    simp [Except.bind, hu]
  have hres2 : resolveForBanTime db u none = getData db u none := by
    unfold resolveForBanTime
    rw [getData_of_user db u none hu]
    cases hf : db.store.find? (resolvePred u none) with
    | some r => rfl
    | none => simp [Except.bind]
  constructor
  · unfold check_ban_time
    rw [hres, hres2]
  · intro r hf hact
    have hres3 : resolveForBanTime db u g = .ok (some r) := by
      rw [hres, getData_of_user db u none hu, hf]
    exact check_ban_time_active_nonzero now db u g r hres3 hact

/-- Witness for C4: user "u1" holds only the global permanent ban
`recGlob`; querying the unrelated group "g9" coincides with the global
query and reports the user as banned. -/
theorem check_ban_time_fallback_witness :
    check_ban_time 100 dbGlob (some "u1") (some "g9") =
      check_ban_time 100 dbGlob (some "u1") none ∧
    ∃ v db2, check_ban_time 100 dbGlob (some "u1") (some "g9") =
      .ok (v, db2) ∧ v ≠ 0 := by
  have h := check_ban_time_fallback 100 dbGlob (some "u1") (some "g9")
    (by rfl) (by rfl) (by rfl)
  exact ⟨h.1, h.2 recGlob (by rfl) (Or.inl (by rfl))⟩

/-- C5: `check_ban_level(u, g, level)` returns `true` iff a record resolves
and its `ban_level` is at most `level`; with no resolved record it returns
`false` for every level. -/
theorem check_ban_level_spec (db : DB) (u g : Option String) (level : Int)
    (res : Option BanRecord) (hres : getData db u g = .ok res) :
    (check_ban_level db u g level = .ok true ↔
      ∃ r, res = some r ∧ r.ban_level ≤ level) ∧
    (res = none → ∀ lv : Int, check_ban_level db u g lv = .ok false) := by
  constructor
  · unfold check_ban_level
    rw [hres]
    cases res with
    | none => simp [Except.bind]
    | some r => simp [Except.bind]
  · intro hnone lv
    subst hnone
    unfold check_ban_level
    rw [hres]
    rfl

/-- Witness for C5: `recPerm` was issued at level 5, so level 6 may unban
("u1", "g1") while level 4 may not, and an unrelated key resolves nothing
and yields `false`. -/
theorem check_ban_level_spec_witness :
    check_ban_level dbPerm (some "u1") (some "g1") 6 = .ok true ∧
    check_ban_level dbPerm (some "u1") (some "g7") 999 = .ok false := by
  constructor
  · exact (check_ban_level_spec dbPerm (some "u1") (some "g1") 6
      (some recPerm) (by rfl)).1.mpr ⟨recPerm, rfl, by decide⟩
  · exact (check_ban_level_spec dbPerm (some "u1") (some "g7") 0
      none (by rfl)).2 rfl 999

/-- C6: when both identity fields are falsy, every resolving operation —
`check_ban_time`, `check_ban_level`, `is_ban`, `ban`, `unban`, and
`get_ban` by identity — surfaces the `UserAndGroupIsNone` error to the
caller instead of reporting a not-found result. -/
theorem both_unset_raises (now level lvl dur : Int) (db : DB)
    (u g reason op : Option String)
    (hu : pyFalsy u = true) (hg : pyFalsy g = true) :
    check_ban_time now db u g = .error .userAndGroupIsNone ∧
    check_ban_level db u g level = .error .userAndGroupIsNone ∧
    is_ban now db u g = .error .userAndGroupIsNone ∧
    ban now db u g lvl reason dur op = .error .userAndGroupIsNone ∧
    unban db u g = .error .userAndGroupIsNone ∧
    get_ban db none u g = .error .userAndGroupIsNone := by
  have hget : getData db u g = .error .userAndGroupIsNone := by
    simp [getData, hu, hg]
  have hrt : resolveForBanTime db u g = .error .userAndGroupIsNone := by
    unfold resolveForBanTime
    rw [hget]
    rfl
  have htime : check_ban_time now db u g = .error .userAndGroupIsNone := by
    unfold check_ban_time
    rw [hrt]
    rfl
  refine ⟨htime, ?_, ?_, ?_, ?_, ?_⟩
  · unfold check_ban_level
    rw [hget]
    rfl
  · unfold is_ban
    rw [htime]
    rfl
  · unfold ban
    rw [hget]
    rfl
  · unfold unban
    rw [hget]
    rfl
  · unfold get_ban
    exact hget

/-- Witness for C6: the six operations all fail with `UserAndGroupIsNone`
on the empty store when user and group are both `None`. -/
theorem both_unset_raises_witness :
    check_ban_time 0 dbEmpty none none = .error .userAndGroupIsNone ∧
    check_ban_level dbEmpty none none 5 = .error .userAndGroupIsNone ∧
    is_ban 0 dbEmpty none none = .error .userAndGroupIsNone ∧
    ban 0 dbEmpty none none 5 none 60 none = .error .userAndGroupIsNone ∧
    unban dbEmpty none none = .error .userAndGroupIsNone ∧
    get_ban dbEmpty none none none = .error .userAndGroupIsNone :=
  both_unset_raises 0 5 5 60 dbEmpty none none none none rfl rfl

/-- C7: `unban` deletes the resolved record and returns `true` when one
exists, returns `false` leaving the store unchanged when none does, and is
idempotent: when the store holds at most one row for the resolution
filter, a second consecutive call returns `false` and changes nothing. -/
theorem unban_spec (db : DB) (u g : Option String)
    (res : Option BanRecord) (hres : getData db u g = .ok res)
    (hcount : (db.store.filter (resolvePred u g)).length ≤ 1) :
    (∀ r, res = some r → unban db u g = .ok (true, deleteRecord db r.id)) ∧
    (res = none → unban db u g = .ok (false, db)) ∧
    (∀ r, res = some r →
      unban (deleteRecord db r.id) u g =
        .ok (false, deleteRecord db r.id)) := by
  obtain ⟨hcond, hfind⟩ := getData_ok hres
  refine ⟨?_, ?_, ?_⟩
  · intro r hr
    subst hr
    unfold unban
    rw [hres]
    rfl
  · intro hnone
    subst hnone
    unfold unban
    rw [hres]
    rfl
  · intro r hr
    subst hr
    have hfind2 :
        ((deleteRecord db r.id).store).find? (resolvePred u g) = none := by
      rw [List.find?_eq_none]
      intro x hx
      intro hpx
      have hnil := filter_delete_nil (hfind.trans rfl) hcount
      have : x ∈ (db.store.filter (fun a => a.id != r.id)).filter
          (resolvePred u g) :=
        List.mem_filter.mpr ⟨hx, hpx⟩
      rw [hnil] at this
      simp at this
    have hget2 : getData (deleteRecord db r.id) u g = .ok none := by
      unfold getData
      rw [hfind2]
      simp [hcond]
    unfold unban
    rw [hget2]
    rfl

/-- Witness for C7: unbanning ("u2", "g2") in `dbTimed` deletes `recTimed`
and returns `true`; the immediate second call returns `false` and leaves
the store as it was. -/
theorem unban_spec_witness :
    unban dbTimed (some "u2") (some "g2") =
      .ok (true, deleteRecord dbTimed 1) ∧
    unban (deleteRecord dbTimed 1) (some "u2") (some "g2") =
      .ok (false, deleteRecord dbTimed 1) := by
  have h := unban_spec dbTimed (some "u2") (some "g2") (some recTimed)
    (by rfl) (by decide)
  exact ⟨h.1 recTimed rfl, h.2.2 recTimed rfl⟩

/-- C9: `check_ban_level` performs no user-global fallback: when the only
resolvable record for user u is the global one (group absent) and the
exact (u, g) row is missing, `check_ban_level(u, g, level)` returns
`false` for every level, while `check_ban_time(u, g)` still reports the
user as banned through its fallback. -/
theorem check_ban_level_no_fallback (now level : Int) (db : DB)
    (u g : Option String) (r : BanRecord)
    (hu : pyFalsy u = false) (hg : pyFalsy g = false)
    (hexact : db.store.find? (resolvePred u g) = none)
    (hglob : db.store.find? (resolvePred u none) = some r)
    (hact : r.duration = -1 ∨ now < r.ban_time + r.duration) :
    check_ban_level db u g level = .ok false ∧
    ∃ v db2, check_ban_time now db u g = .ok (v, db2) ∧ v ≠ 0 := by
  constructor
  · unfold check_ban_level
    rw [getData_of_user db u g hu, hexact]
    rfl
  · have hres : resolveForBanTime db u g = .ok (some r) := by
      unfold resolveForBanTime
      rw [getData_of_user db u g hu, hexact]
      simp only [Except.bind, hu, Bool.not_false, if_true]
      rw [getData_of_user db u none hu, hglob]
    exact check_ban_time_active_nonzero now db u g r hres hact

/-- Witness for C9: user "u1" holds only the global ban `recGlob`; for the
group "g9" every level, even 999, is refused by `check_ban_level`, yet
`check_ban_time` reports the user as banned. -/
theorem check_ban_level_no_fallback_witness :
    check_ban_level dbGlob (some "u1") (some "g9") 999 = .ok false ∧
    ∃ v db2, check_ban_time 100 dbGlob (some "u1") (some "g9") =
      .ok (v, db2) ∧ v ≠ 0 :=
  check_ban_level_no_fallback 100 999 dbGlob (some "u1") (some "g9")
    recGlob rfl rfl rfl rfl (Or.inl rfl)

/-- C10: when the exact (u, g) record has expired, `check_ban_time` deletes
it and returns `0` without consulting the user-global ban, even though that
global ban is active; the immediately following `check_ban_time` call then
reports the global ban through the fallback. -/
theorem expired_exact_shadows_global (now : Int) (db : DB)
    (u g : Option String) (r rg : BanRecord)
    (hu : pyFalsy u = false) (hg : pyFalsy g = false)
    (hexact : db.store.find? (resolvePred u g) = some r)
    (hfin : r.duration ≠ -1) (hexp : r.ban_time + r.duration ≤ now)
    (hexact2 : ((deleteRecord db r.id).store).find? (resolvePred u g) =
      none)
    (hglob : ((deleteRecord db r.id).store).find? (resolvePred u none) =
      some rg)
    (hact : rg.duration = -1 ∨ now < rg.ban_time + rg.duration) :
    check_ban_time now db u g = .ok (0, deleteRecord db r.id) ∧
    ∃ v db2, check_ban_time now (deleteRecord db r.id) u g =
      .ok (v, db2) ∧ v ≠ 0 := by
  constructor
  · have hres : resolveForBanTime db u g = .ok (some r) := by
      unfold resolveForBanTime
      rw [getData_of_user db u g hu, hexact]
      rfl
    rw [check_ban_time_run now db u g (some r) hres]
    simp [specBanTimeResult, hfin,
      show ¬now < r.ban_time + r.duration by omega]
  · have hres2 : resolveForBanTime (deleteRecord db r.id) u g =
        .ok (some rg) := by
      unfold resolveForBanTime
      rw [getData_of_user _ u g hu, hexact2]
      simp only [Except.bind, hu, Bool.not_false, if_true]
      rw [getData_of_user _ u none hu, hglob]
    exact check_ban_time_active_nonzero now _ u g rg hres2 hact

/-- Witness for C10: in `dbShadow` the exact ban on ("u3", "g3") expired at
time 30; at time 100 the first query deletes it and answers `0` although
the permanent global ban `recGlob3` is active, and the second query then
reports `-1` via the fallback. -/
theorem expired_exact_shadows_global_witness :
    check_ban_time 100 dbShadow (some "u3") (some "g3") =
      .ok (0, deleteRecord dbShadow 1) ∧
    ∃ v db2, check_ban_time 100 (deleteRecord dbShadow 1) (some "u3")
      (some "g3") = .ok (v, db2) ∧ v ≠ 0 :=
  expired_exact_shadows_global 100 dbShadow (some "u3") (some "g3")
    recExp recGlob3 rfl rfl rfl (by decide) (by decide) rfl rfl
    (Or.inl rfl)

/-- Counterexample to C2 as stated: on the group-only key (None, "g1"),
two consecutive `ban` calls leave TWO rows for the key, not one.  The
second call resolves with the empty-string user sentinel, never finds the
first row (stored with user `None`), and creates a duplicate. -/
theorem ban_twice_group_only_duplicates :
    c2run.map (fun db => (keyRecords db none (some "g1")).length) =
      .ok 2 ∧ (2 : Nat) ≠ 1 := by
  exact ⟨by rfl, by decide⟩

/-- C2 (amended): on a key whose user is truthy and whose group is absent
or truthy — the keys on which resolution finds what `ban` creates — with at
most one stored row for the key, calling `ban` twice is equivalent to
calling `unban` once then `ban` once: each run leaves exactly one row for
the key, carrying the second call's field values with `ban_time` equal to
the second call's time. -/
theorem ban_twice_eq_unban_ban (t1 t2 : Int) (db : DB)
    (u g : Option String) (l1 l2 : Int) (r1 r2 : Option String)
    (d1 d2 : Int) (o1 o2 : Option String)
    (hu : pyFalsy u = false) (hg : g = none ∨ pyFalsy g = false)
    (hcount : (keyRecords db u g).length ≤ 1) :
    ∃ dbA dbB bC dbC dbD,
      ban t1 db u g l1 r1 d1 o1 = .ok dbA ∧
      ban t2 dbA u g l2 r2 d2 o2 = .ok dbB ∧
      unban db u g = .ok (bC, dbC) ∧
      ban t2 dbC u g l2 r2 d2 o2 = .ok dbD ∧
      (keyRecords dbB u g).map recFields =
        [(u, g, l2, t2, r2, d2, pyOrZero o2)] ∧
      (keyRecords dbD u g).map recFields =
        [(u, g, l2, t2, r2, d2, pyOrZero o2)] := by
  obtain ⟨dbA, hA, hAkey, _⟩ :=
    ban_replaces t1 db u g l1 r1 d1 o1 hu hg hcount
  have hcountA : (keyRecords dbA u g).length ≤ 1 := by
    rw [hAkey]
    simp
  obtain ⟨dbB, hB, hBkey, _⟩ :=
    ban_replaces t2 dbA u g l2 r2 d2 o2 hu hg hcountA
  have hun : ∃ bC dbC, unban db u g = .ok (bC, dbC) ∧
      (keyRecords dbC u g).length ≤ 1 := by
    unfold unban
    rw [getData_of_user db u g hu, resolvePred_eq_keyPred hu hg]
    cases hf : db.store.find? (keyPred u g) with
    | none => exact ⟨false, db, rfl, hcount⟩
    | some r =>
      refine ⟨true, deleteRecord db r.id, rfl, ?_⟩
      have hsub : List.Sublist (keyRecords (deleteRecord db r.id) u g)
          (keyRecords db u g) :=
        List.Sublist.filter _ (List.filter_sublist _)
      exact le_trans (List.Sublist.length_le hsub) hcount
  obtain ⟨bC, dbC, hC, hcountC⟩ := hun
  obtain ⟨dbD, hD, hDkey, _⟩ :=
    ban_replaces t2 dbC u g l2 r2 d2 o2 hu hg hcountC
  refine ⟨dbA, dbB, bC, dbC, dbD, hA, hB, hC, hD, ?_, ?_⟩
  · rw [hBkey]
    simp [recFields, newRecord]
  · rw [hDkey]
    simp [recFields, newRecord]

/-- Witness for C2 (amended): two bans on ("u5", "g5") starting from the
empty store leave exactly the second call's row, as does unban-then-ban. -/
theorem ban_twice_eq_unban_ban_witness :
    ∃ dbA dbB bC dbC dbD,
      ban 10 dbEmpty (some "u5") (some "g5") 5 (some "a") 60 (some "x") =
        .ok dbA ∧
      ban 20 dbA (some "u5") (some "g5") 6 (some "b") 30 (some "y") =
        .ok dbB ∧
      unban dbEmpty (some "u5") (some "g5") = .ok (bC, dbC) ∧
      ban 20 dbC (some "u5") (some "g5") 6 (some "b") 30 (some "y") =
        .ok dbD ∧
      (keyRecords dbB (some "u5") (some "g5")).map recFields =
        [(some "u5", some "g5", 6, 20, some "b", 30, pyOrZero (some "y"))] ∧
      (keyRecords dbD (some "u5") (some "g5")).map recFields =
        [(some "u5", some "g5", 6, 20, some "b", 30, pyOrZero (some "y"))] :=
  ban_twice_eq_unban_ban 10 20 dbEmpty (some "u5") (some "g5") 5 6
    (some "a") (some "b") 60 30 (some "x") (some "y") rfl
    (Or.inr rfl) (by decide)

/-- Counterexample to C8 as stated: two serialized `ban` calls — a valid
schedule of two concurrent calls under the per-key lock — on the group-only
key (None, "g2") leave TWO rows for the key, not one. -/
theorem banSeq_duplicate_on_group_key :
    c8run.map (fun db => (keyRecords db none (some "g2")).length) =
      .ok 2 ∧ (2 : Nat) ≠ 1 := by
  exact ⟨by rfl, by decide⟩

/-- C8 (amended): for a key whose user is truthy and whose group is absent
or truthy, any serialization of N concurrent `ban` calls (the order the
per-key lock produces), starting from a store with at most one row for the
key, leaves exactly one row for the key and its data fields equal the last
scheduled payload — in particular one of the N payloads. -/
theorem banSeq_single_record (u g : Option String)
    (hu : pyFalsy u = false) (hg : g = none ∨ pyFalsy g = false) :
    ∀ (cs : List BanCall) (db : DB), cs ≠ [] →
      (keyRecords db u g).length ≤ 1 →
      ∃ db2 c, cs.getLast? = some c ∧ c ∈ cs ∧
        banSeq db u g cs = .ok db2 ∧
        (keyRecords db2 u g).map recFields = [callFields u g c] := by
  intro cs
  induction cs with
  | nil => intro db h; exact absurd rfl h
  | cons c cs ih =>
    intro db _ hcount
    obtain ⟨dbA, hA, hAkey, _⟩ := ban_replaces c.now db u g c.ban_level
      c.reason c.duration c.operator hu hg hcount
    cases cs with
    | nil =>
      refine ⟨dbA, c, rfl, by simp, ?_, ?_⟩
      · simp [banSeq, hA, Except.bind]
      · rw [hAkey]
        simp [recFields, newRecord, callFields]
    | cons c2 cs2 =>
      have hcountA : (keyRecords dbA u g).length ≤ 1 := by
        rw [hAkey]
        simp
      obtain ⟨db2, cl, hlast, hmem, hrun, hfields⟩ :=
        ih dbA (by simp) hcountA
      refine ⟨db2, cl, ?_, ?_, ?_, hfields⟩
      · rw [List.getLast?_cons_cons]
        exact hlast
      · exact List.mem_cons_of_mem _ hmem
      · have hstep : banSeq db u g (c :: c2 :: cs2) =
            (ban c.now db u g c.ban_level c.reason c.duration
              c.operator).bind fun db3 => banSeq db3 u g (c2 :: cs2) := rfl
        rw [hstep, hA]
        exact hrun

/-- Witness for C8 (amended): three serialized bans on ("u6", "g6") from
the empty store leave exactly the last payload's row. -/
theorem banSeq_single_record_witness :
    ∃ db2 c,
      ([⟨10, 5, some "a", 60, some "x"⟩, ⟨20, 6, some "b", 30, some "y"⟩,
        ⟨30, 7, some "c", -1, some "z"⟩] :
          List BanCall).getLast? = some c ∧
      c ∈ ([⟨10, 5, some "a", 60, some "x"⟩,
        ⟨20, 6, some "b", 30, some "y"⟩,
        ⟨30, 7, some "c", -1, some "z"⟩] : List BanCall) ∧
      banSeq dbEmpty (some "u6") (some "g6")
        [⟨10, 5, some "a", 60, some "x"⟩, ⟨20, 6, some "b", 30, some "y"⟩,
          ⟨30, 7, some "c", -1, some "z"⟩] = .ok db2 ∧
      (keyRecords db2 (some "u6") (some "g6")).map recFields =
        [callFields (some "u6") (some "g6") c] :=
  banSeq_single_record (some "u6") (some "g6") rfl (Or.inr rfl)
    [⟨10, 5, some "a", 60, some "x"⟩, ⟨20, 6, some "b", 30, some "y"⟩,
      ⟨30, 7, some "c", -1, some "z"⟩] dbEmpty (by decide) (by decide)
